import Mathlib

/-
  Verification of the sugar library (package sugar): generic helpers
  Try, Must, Handle, Zero and Ptr, shallowly embedded in Lean 4.

  Go errors are modelled by an optional message-carrying value
  (nil error = none).  A Go computation that may panic is modelled by
  an Outcome: either a normal return or a panic carrying the payload
  that recover would observe.  Pointers are modelled with an explicit
  heap of cells addressed by naturals.
-/

namespace Sugar

/-- A Go error value, modelled by the message its Error method yields. -/
structure GoErr where
  msg : String
deriving DecidableEq, Repr

/-- A panic payload as observed by recover, together with the string
the fmt verb %v produces for it: either an error value (whose %v form
is its message) or any other payload carried by its %v string. -/
inductive PanicVal where
  | err (e : GoErr)
  | str (s : String)
deriving DecidableEq, Repr

/-- The %v stringification of a recovered payload: fmt calls the Error
method on error values and formats other payloads textually. -/
def stringify : PanicVal → String
  | .err e => e.msg
  | .str s => s

/-- The Go runtime maps a panic invoked with a nil argument to a
runtime.PanicNilError payload, so recover never observes nil after a
panic; its message is the fixed runtime wording. -/
def runtimePanicVal : Option PanicVal → PanicVal
  | some p => p
  | none => .str "panic called with nil argument"

/-- The result of running a Go function body: a normal return carrying
a value, or a panic carrying the payload recover would observe. -/
inductive Outcome (α : Type u) where
  | ok (v : α)
  | panicked (p : PanicVal)
deriving DecidableEq, Repr

/-- Whether an outcome is an abort (a panic) rather than a return. -/
def Outcome.panics : Outcome α → Bool
  | .ok _ => false
  | .panicked _ => true

/-- Modelled from the spec: the zero-value helper Zero (ZeroValue in
the spec) has its source file absent from src/ (only zero_test.go is
present).  Following section 4.1, a type is given its canonical
default value: numeric 0, empty text, false, absent container, null
reference, aggregate with all fields defaulted. -/
class GoZero (α : Type u) where
  zero : α

/-- Modelled from the spec: Zero returns the canonical default value
for the type, as section 4.1 states; the defining source file is not
under src/. -/
def Zero (α : Type u) [GoZero α] : α := GoZero.zero

/-- Shallow embedding of Try (src/unnamed/part_002, lines 143-151).
The argument is the outcome of running f.  A normal return v yields
(v, nil).  A panic is recovered: recover returns the (never nil)
payload r, the return value is set to Zero and the error message is
"panic: " followed by the %v form of r. -/
def Try {α : Type u} [GoZero α] (f : Outcome α) : α × Option GoErr :=
  match f with
  | .ok v => (v, none)
  | .panicked r => (Zero α, some ⟨"panic: " ++ stringify r⟩)

/-- Shallow embedding of Must (src/unnamed/part_002, lines 229-234):
if err is non-nil it panics with err itself as payload, otherwise it
returns v. -/
def Must {α : Type u} (v : α) (err : Option GoErr) : Outcome α :=
  match err with
  | some e => .panicked (.err e)
  | none => .ok v

/-- The Handler type of handle.go: a Go function value of type
func(error) error, which may itself be the nil function value (none). -/
def Handler : Type := Option (GoErr → Option GoErr)

/-- The payload of the runtime panic raised when a nil function value
is called. -/
def nilFuncPanic : PanicVal :=
  .str "runtime error: invalid memory address or nil pointer dereference"

/-- Shallow embedding of the function Handle h constructs
(src/handle.go, lines 93-103) applied to (v, err).  If err is nil, v
is returned at once.  Otherwise h is called: calling a nil function
value is a runtime panic; if h returns nil the original v is returned;
if h returns a non-nil error the call panics with that error. -/
def Handle {α : Type u} (h : Handler) (v : α) (err : Option GoErr) : Outcome α :=
  match err with
  | none => .ok v
  | some e =>
    match h with
    | none => .panicked nilFuncPanic
    | some hf =>
      match hf e with
      | none => .ok v
      | some e2 => .panicked (.err e2)

/-- A heap of values of one type: a store of cells addressed by
naturals, with every address below next allocated.  Caller variables
and escaped copies live in distinct cells. -/
structure Heap (α : Type u) where
  mem : Nat → α
  next : Nat

/-- Reading the cell at an address. -/
def Heap.read (h : Heap α) (l : Nat) : α := h.mem l

/-- Writing a value into the cell at an address. -/
def Heap.write (h : Heap α) (l : Nat) (v : α) : Heap α :=
  ⟨fun l2 => if l2 = l then v else h.mem l2, h.next⟩

/-- Shallow embedding of Ptr (src/ptr.go, lines 105-107): the argument
v is passed by value, so the function body owns a copy of it; taking
the address of that copy makes it escape to a fresh heap cell, whose
address is returned. -/
def Ptr (h : Heap α) (v : α) : Nat × Heap α :=
  (h.next, ⟨fun l2 => if l2 = h.next then v else h.mem l2, h.next + 1⟩)

/-- Representative Go types for the zero-value claims.  A Go slice is
modelled as nil (none) or a list of elements; a Go pointer as nil or
an address. -/
def GoSlice (α : Type u) : Type u := Option (List α)

/-- A Go pointer value: nil or an address. -/
def GoPtrVal : Type := Option Nat

/-- The aggregate type used by the consistency test in zero_test.go:
a struct with a text field and an integer field. -/
structure TestStruct where
  name : String
  age : Int
deriving DecidableEq, Repr

instance : GoZero Int := ⟨0⟩

instance : GoZero String := ⟨""⟩

instance : GoZero Bool := ⟨false⟩

instance : GoZero (GoSlice α) := ⟨(none : Option (List α))⟩

instance : GoZero GoPtrVal := ⟨(none : Option Nat)⟩

instance : GoZero TestStruct := ⟨⟨Zero String, Zero Int⟩⟩

instance : GoZero (List α) := ⟨[]⟩

/-- Modelled from the spec: the value produced in the target language
by declaring a variable of a type without initializing it, the
comparison point of section 4.1 and of TestZero_ConsistencyWithDeclaration;
the language rule itself is outside src/.  In Go an uninitialized
declaration yields numeric 0, empty string, false, a nil slice, a nil
pointer, and a struct whose fields are recursively so initialized. -/
class GoUninit (α : Type u) where
  uninit : α

instance : GoUninit Int := ⟨0⟩

instance : GoUninit String := ⟨""⟩

instance : GoUninit Bool := ⟨false⟩

instance : GoUninit (GoSlice α) := ⟨(none : Option (List α))⟩

instance : GoUninit GoPtrVal := ⟨(none : Option Nat)⟩

instance : GoUninit TestStruct := ⟨⟨GoUninit.uninit, GoUninit.uninit⟩⟩

/-- A one-cell heap holding the integer 5, used for concrete evaluation. -/
def heap1 : Heap Int := ⟨fun _ => 5, 1⟩

/-- C1: Try returns (v, nil) when f completes normally with v, and when
f panics with payload p it returns (Zero, e) with e the non-nil error
whose message is exactly the string "panic: " followed by the
stringified form of p. -/
theorem Try_ok_or_panic (α : Type u) [GoZero α] :
    (∀ v : α, Try (.ok v) = (v, none)) ∧
    (∀ p : PanicVal,
      Try (α := α) (.panicked p) = (Zero α, some ⟨"panic: " ++ stringify p⟩)) :=
  ⟨fun _ => rfl, fun _ => rfl⟩

/-- C2: Must returns v unchanged when err is nil, and when err is
non-nil it panics with the panic payload being exactly the error value
err itself, returning no value. -/
theorem Must_ok_or_panic (α : Type u) :
    (∀ v : α, Must v none = .ok v) ∧
    (∀ (v : α) (e : GoErr), Must v (some e) = .panicked (.err e)) :=
  ⟨fun _ => rfl, fun _ _ => rfl⟩

/-- C3: the function Handle constructs from the identity handler,
applied to (v, err), behaves exactly like Must (v, err): same returned
value when err is nil, a panic with the same payload otherwise. -/
theorem Handle_identity_eq_Must (α : Type u) (v : α) (err : Option GoErr) :
    Handle (some fun e => some e) v err = Must v err := by
  cases err <;> rfl

/-- C4: when the function passed to Try panics with a nil payload, Try
still intercepts the abort and returns (Zero, e) with e non-nil, whose
message is "panic: " followed by the runtime wording for a nil panic
argument; the abort is not reported as a success. -/
theorem Try_nil_payload (α : Type u) [GoZero α] :
    Try (α := α) (.panicked (runtimePanicVal none))
      = (Zero α, some ⟨"panic: panic called with nil argument"⟩) ∧
    (Try (α := α) (.panicked (runtimePanicVal none))).2 ≠ none :=
  ⟨rfl, by simp [Try, runtimePanicVal]⟩

/-- C5: the function Handle constructs, called with (v, nil), returns
v unchanged without invoking the handler: the result is the same
whatever handler was supplied. -/
theorem Handle_no_error_ignores_handler (α : Type u) (v : α) (h1 h2 : Handler) :
    Handle h1 v none = .ok v ∧ Handle h1 v none = Handle h2 v none :=
  ⟨rfl, rfl⟩

/-- C6 counterexample: with an unset (nil) handler and a nil error the
constructed function does not abort: it resolves to the value, so the
claim that it aborts for every err, nil included, fails at err = nil. -/
theorem Handle_nil_handler_nil_error_cex :
    Handle (α := Int) none 7 none = .ok 7 ∧
    (Handle (α := Int) none 7 none).panics = false :=
  ⟨rfl, rfl⟩

/-- C6 amended: with an unset (nil) handler, invoking the constructed
function on (v, err) with a non-nil err aborts with the unset-handler
(nil function call) runtime panic rather than silently resolving. -/
theorem Handle_nil_handler_aborts_on_error (α : Type u) (v : α) (e : GoErr) :
    Handle none v (some e) = .panicked nilFuncPanic ∧
    (Handle none v (some e)).panics = true :=
  ⟨rfl, rfl⟩

/-- C7: the function Handle constructs from the always-suppressing
handler never panics and always returns v, whatever the error. -/
theorem Handle_suppressor_never_panics (α : Type u) (v : α) (err : Option GoErr) :
    Handle (some fun _ => none) v err = .ok v := by
  cases err <;> rfl

/-- C8: Zero agrees with the uninitialized-declaration value on the
representative kinds: integer, text, boolean, container (slice),
reference (pointer) and aggregate of defaulted fields. -/
theorem Zero_matches_uninit :
    Zero Int = GoUninit.uninit ∧
    Zero String = GoUninit.uninit ∧
    Zero Bool = GoUninit.uninit ∧
    Zero (GoSlice Int) = GoUninit.uninit ∧
    Zero GoPtrVal = GoUninit.uninit ∧
    Zero TestStruct = GoUninit.uninit :=
  ⟨rfl, rfl, rfl, rfl, rfl, rfl⟩

/-- C9: Ptr applied to the value of a caller variable (cell l) returns
a fresh pointer whose target initially equals that value; writing the
caller variable afterward does not change the value reached through
the pointer, and writing through the pointer does not change the
caller variable. -/
theorem Ptr_no_alias (α : Type u) (h : Heap α) (l : Nat) (hl : l < h.next) (w w2 : α) :
    ((Ptr h (h.read l)).2.read (Ptr h (h.read l)).1 = h.read l) ∧
    (Ptr h (h.read l)).1 ≠ l ∧
    (((Ptr h (h.read l)).2.write l w).read (Ptr h (h.read l)).1 = h.read l) ∧
    (((Ptr h (h.read l)).2.write (Ptr h (h.read l)).1 w2).read l = h.read l) := by
  have hne : l ≠ h.next := Nat.ne_of_lt hl
  refine ⟨?_, ?_, ?_, ?_⟩ <;>
    simp [Ptr, Heap.read, Heap.write, hne, Ne.symm hne]

/-- C9 witness: the caller variable is cell 0 of a one-cell heap
holding 5; the pointer target starts at 5, writing 9 into the caller
cell leaves the target at 5, and writing 11 through the pointer leaves
the caller cell at 5. -/
theorem Ptr_no_alias_witness :
    0 < heap1.next ∧
    (((Ptr heap1 (heap1.read 0)).2.read (Ptr heap1 (heap1.read 0)).1 = heap1.read 0) ∧
     (Ptr heap1 (heap1.read 0)).1 ≠ 0 ∧
     (((Ptr heap1 (heap1.read 0)).2.write 0 9).read (Ptr heap1 (heap1.read 0)).1 = heap1.read 0) ∧
     (((Ptr heap1 (heap1.read 0)).2.write (Ptr heap1 (heap1.read 0)).1 11).read 0 = heap1.read 0)) :=
  ⟨by decide, Ptr_no_alias Int heap1 0 (by decide) 9 11⟩

/-- C10: the function Handle constructs from an unset (nil) handler,
invoked with (v, nil), returns v and does not abort: the handler value
is never consulted on the error-absent path. -/
theorem Handle_nil_handler_no_error_returns (α : Type u) (v : α) :
    Handle none v none = .ok v ∧ (Handle none v none).panics = false :=
  ⟨rfl, rfl⟩

end Sugar
